import Mathlib

/-!
# Verification of the time_formatting service core

Shallow embedding of `src/main.py` and `src/time_service.py`:
the proleptic-Gregorian day arithmetic and the United States
daylight-saving rule (second Sunday of March, first Sunday of November,
transitions at 02:00 local, one-hour shift) that the `pytz` zone database
applies to `US/Eastern`, `US/Central` and `US/Pacific` in the era the
service operates in, together with the parsing, formatting and conversion
functions of the two service variants.
-/

namespace TimeFmt

/-! ## Calendar arithmetic (proleptic Gregorian) -/

/-- Leap-year test of the Gregorian calendar. -/
def isLeap (y : Nat) : Bool :=
  y % 4 == 0 && (y % 100 != 0 || y % 400 == 0)

/-- Number of days of month `m` (1..12) of year `y`. -/
def daysInMonth (y m : Nat) : Nat :=
  if m = 1 then 31
  else if m = 2 then (if isLeap y then 29 else 28)
  else if m = 3 then 31
  else if m = 4 then 30
  else if m = 5 then 31
  else if m = 6 then 30
  else if m = 7 then 31
  else if m = 8 then 31
  else if m = 9 then 30
  else if m = 10 then 31
  else if m = 11 then 30
  else if m = 12 then 31
  else 0

/-- A valid calendar date: year at least 1, month 1..12, day within the month. -/
def dateValid (y m d : Nat) : Prop :=
  1 ≤ y ∧ 1 ≤ m ∧ m ≤ 12 ∧ 1 ≤ d ∧ d ≤ daysInMonth y m

instance (y m d : Nat) : Decidable (dateValid y m d) := by
  unfold dateValid; infer_instance

/-- Days elapsed since 0000-03-01 of the proleptic Gregorian calendar
(March-based era decomposition, days-from-civil algorithm). -/
def daysFromCivil (y m d : Nat) : Nat :=
  let ys := if m ≤ 2 then y - 1 else y
  let mp := (m + 9) % 12
  ys * 365 + ys / 4 - ys / 100 + ys / 400 + (153 * mp + 2) / 5 + d - 1

/-- Correction term of the civil-from-days algorithm: subtracting it
turns a day-of-era into 365 times the year-of-era plus a day-of-year. -/
def fcorr (n : Nat) : Nat :=
  n - n / 1460 + n / 36524 - n / 146096

/-- Rebuild (year, month, day) from era, year-of-era and (March-based)
day-of-year. -/
def fromYoeDoy (era yoe doy : Nat) : Nat × Nat × Nat :=
  let mp := (5 * doy + 2) / 153
  let d := doy - (153 * mp + 2) / 5 + 1
  let m := if mp < 10 then mp + 3 else mp - 9
  (if m ≤ 2 then yoe + era * 400 + 1 else yoe + era * 400, m, d)

/-- Inverse of `daysFromCivil`: calendar date of a day number
(civil-from-days algorithm). -/
def civilFromDays (z : Nat) : Nat × Nat × Nat :=
  let era := z / 146097
  let doe := z % 146097
  let yoe := fcorr doe / 365
  let doy := doe - (365 * yoe + yoe / 4 - yoe / 100)
  fromYoeDoy era yoe doy

/-- Day of week of a date, Sunday = 0. -/
def dayOfWeek (y m d : Nat) : Nat :=
  (daysFromCivil y m d + 3) % 7

/-! ### Correctness of the day-number round trip -/

/-- Numeric value of a decimal digit character. -/
def digitVal (c : Char) : Nat := c.toNat - 48

/-- Value of a list of decimal digit characters (`int` on a regex group). -/
def natOfDigits (l : List Char) : Nat :=
  l.foldl (fun a c => 10 * a + digitVal c) 0

/-- Split a character list at every occurrence of `sep`; mirrors the field
structure of an anchored regex or strptime pattern with `sep`-separated
numeric fields. -/
def splitOnChar (sep : Char) : List Char → List (List Char)
  | [] => [[]]
  | c :: cs =>
    if c = sep then
      [] :: splitOnChar sep cs
    else
      match splitOnChar sep cs with
      | [] => [[c]]
      | f :: rest => (c :: f) :: rest

/-- Python `str.strip()`: drop leading and trailing whitespace. -/
def stripWs (l : List Char) : List Char :=
  ((l.dropWhile Char.isWhitespace).reverse.dropWhile Char.isWhitespace).reverse

/-- A nonempty numeric field of at most two digits, as matched by one
`%H`/`%M`/`%S`-style strptime directive. -/
def isField12 (l : List Char) : Bool :=
  !l.isEmpty && decide (l.length ≤ 2) && l.all Char.isDigit

/-- Two-digit zero-padded decimal rendering (`%02d`), for values < 100. -/
def pad2L (n : Nat) : List Char :=
  if n < 10 then ['0', Nat.digitChar n]
  else [Nat.digitChar (n / 10), Nat.digitChar (n % 10)]

/-- Four-digit zero-padded decimal rendering (`%04d`), for values < 10000. -/
def pad4L (n : Nat) : List Char :=
  [Nat.digitChar (n / 1000 % 10), Nat.digitChar (n / 100 % 10),
   Nat.digitChar (n / 10 % 10), Nat.digitChar (n % 10)]

/-- Unpadded decimal rendering (`f"{n}"`), for values < 100. -/
def nopadL (n : Nat) : List Char :=
  if n < 10 then [Nat.digitChar n]
  else [Nat.digitChar (n / 10), Nat.digitChar (n % 10)]

/-- `strftime("%H:%M:%S")`. -/
def formatHMS (h mi s : Nat) : String :=
  String.mk (pad2L h ++ ':' :: (pad2L mi ++ ':' :: pad2L s))

/-- `str(datetime)`: `"YYYY-MM-DD HH:MM:SS"`. -/
def renderNaive (y mo d h mi s : Nat) : String :=
  String.mk (pad4L y ++ '-' :: (pad2L mo ++ '-' :: (pad2L d ++
    ' ' :: (pad2L h ++ ':' :: (pad2L mi ++ ':' :: pad2L s)))))

/-! ## Errors and data model -/

structure HTTPException where
  status : Nat
  detail : String
deriving DecidableEq, Repr

/-- Python `datetime.time`: the value `parse_time` builds and
`format_time_standard` consumes. -/
structure ClockTime where
  hour : Nat
  minute : Nat
  second : Nat
deriving DecidableEq, Repr

/-! ## Parsers (src/main.py and src/time_service.py, identical in both) -/

/-- `parse_time_hms`: `datetime.strptime(hms.strip(), "%H:%M:%S")`.
Each strptime directive matches one or two digits; hour 0-23,
minute 0-59; a second of 60 or 61 matches the `%S` pattern but is then
rejected by the datetime constructor, so the accepted seconds are 0-59.
The whole stripped string must be consumed. -/
def parse_time_hms (hms : String) : Except HTTPException (Nat × Nat × Nat) :=
  match splitOnChar ':' (stripWs hms.data) with
  | [f1, f2, f3] =>
    if isField12 f1 ∧ isField12 f2 ∧ isField12 f3 then
      let h := natOfDigits f1
      let mi := natOfDigits f2
      let s := natOfDigits f3
      if h ≤ 23 ∧ mi ≤ 59 ∧ s ≤ 59 then
        .ok (h, mi, s)
      else .error ⟨400, "Invalid time_str format: " ++ hms ++ ". Expected 'HH:MM:SS'."⟩
    else .error ⟨400, "Invalid time_str format: " ++ hms ++ ". Expected 'HH:MM:SS'."⟩
  | _ => .error ⟨400, "Invalid time_str format: " ++ hms ++ ". Expected 'HH:MM:SS'."⟩

/-- `parse_date`: `None` (or an empty string, both falsy) yields `None`;
otherwise `datetime.strptime(date_s.strip(), "%Y-%m-%d")` with `%Y`
exactly four digits, `%m`/`%d` one or two digits, then the datetime
constructor validates month, day-of-month and `MINYEAR = 1`. -/
def parse_date (dateS : Option String) : Except HTTPException (Option (Nat × Nat × Nat)) :=
  match dateS with
  | none => .ok none
  | some str =>
    if str = "" then .ok none
    else
      match splitOnChar '-' (stripWs str.data) with
      | [fy, fm, fd] =>
        if (fy.length = 4 ∧ fy.all Char.isDigit) ∧ isField12 fm ∧ isField12 fd then
          let y := natOfDigits fy
          let mo := natOfDigits fm
          let d := natOfDigits fd
          if dateValid y mo d then
            .ok (some (y, mo, d))
          else .error ⟨400, "Invalid date_str format: " ++ str ++ ". Expected 'YYYY-MM-DD'."⟩
        else .error ⟨400, "Invalid date_str format: " ++ str ++ ". Expected 'YYYY-MM-DD'."⟩
      | _ => .error ⟨400, "Invalid date_str format: " ++ str ++ ". Expected 'YYYY-MM-DD'."⟩

/-- `parse_time` of `src/main.py`: regex `^(\d{1,2}):(\d{2})$` on the
stripped input, then explicit range checks; failures are the raised
`ValueError` messages. -/
def parse_time (time_str : String) : Except String ClockTime :=
  let cs := stripWs time_str.data
  match splitOnChar ':' cs with
  | [f1, f2] =>
    if (f1 ≠ [] ∧ f1.length ≤ 2 ∧ f1.all Char.isDigit) ∧
        (f2.length = 2 ∧ f2.all Char.isDigit) then
      let hour := natOfDigits f1
      let minute := natOfDigits f2
      if hour > 23 then
        .error ("Hour must be between 0 and 23, got " ++ toString hour)
      else if minute > 59 then
        .error ("Minute must be between 0 and 59, got " ++ toString minute)
      else .ok ⟨hour, minute, 0⟩
    else
      .error ("Invalid time format: " ++ String.mk cs ++ ". Expected HH:MM format")
  | _ => .error ("Invalid time format: " ++ String.mk cs ++ ". Expected HH:MM format")

/-- Helper of `format_time_standard`: `f"{hour_12}:{minute:02d} {period}"`. -/
def render12 (hour12 minute : Nat) (period : List Char) : String :=
  String.mk (nopadL hour12 ++ ':' :: (pad2L minute ++ ' ' :: period))

/-- `format_time_standard` of `src/main.py`: 12-hour rendering with
`AM`/`PM`, hour unpadded, minute zero-padded; reads only hour and
minute of the time object. -/
def format_time_standard (t : ClockTime) : String :=
  if t.hour = 0 then render12 12 t.minute ['A', 'M']
  else if t.hour < 12 then render12 t.hour t.minute ['A', 'M']
  else if t.hour = 12 then render12 12 t.minute ['P', 'M']
  else render12 (t.hour - 12) t.minute ['P', 'M']

/-! ## Zone registry (src/main.py lines 45-71, src/time_service.py 13-48) -/

/-- The four zone rule sets of the platform zone database the service can
reach. Their offset rules are modelled below with the United States
daylight-saving rule the zone database applies in the service's era. -/
inductive Zone where
  | eastern
  | central
  | pacific
  | utc
deriving DecidableEq, Repr

def SUPPORTED_ABBR : List String := ["EST", "CST", "PST", "UTC"]

def ABBR_TO_IANA : List (String × String) :=
  [("EST", "US/Eastern"), ("CST", "US/Central"), ("PST", "US/Pacific"), ("UTC", "UTC")]

def IANA_TO_ABBR : List (String × String) :=
  ABBR_TO_IANA.map (fun p => (p.2, p.1))

/-- `resolve_abbr`: accept the four abbreviations, normalize the legacy
IANA names, HTTP 400 for anything else (detail carries the offending
string and the allowed list). -/
def resolve_abbr (tz : String) : Except HTTPException String :=
  if SUPPORTED_ABBR.contains tz then .ok tz
  else
    match IANA_TO_ABBR.lookup tz with
    | some a => .ok a
    | none =>
      .error ⟨400, "Unknown or unsupported timezone: " ++ tz ++ ". Allowed: EST, CST, PST, UTC"⟩

/-- `pytz.timezone` restricted to the names the service can pass it,
under a correctly configured zone database. -/
def pytzZone (iana : String) : Option Zone :=
  if iana = "US/Eastern" then some .eastern
  else if iana = "US/Central" then some .central
  else if iana = "US/Pacific" then some .pacific
  else if iana = "UTC" then some .utc
  else none

/-- `abbr_to_tzinfo`: index `ABBR_TO_IANA` (an out-of-table key raises an
uncaught `KeyError`, surfaced as an internal error), then look the name
up in the zone database; a missing rule set is the HTTP 500
configuration-error branch. -/
def abbr_to_tzinfo (abbr : String) : Except HTTPException Zone :=
  match ABBR_TO_IANA.lookup abbr with
  | none => .error ⟨500, "KeyError: " ++ abbr⟩
  | some iana =>
    match pytzZone iana with
    | some z => .ok z
    | none => .error ⟨500, "Server timezone config error: " ++ iana⟩

/-! ## Zone rules: offsets, transitions, localize, astimezone

The United States rule in force since 2007, as recorded in the zone
database for `US/Eastern`, `US/Central` and `US/Pacific`: daylight
saving starts at 02:00 standard time on the second Sunday of March
(clocks jump to 03:00) and ends at 02:00 daylight time on the first
Sunday of November (clocks fall back to 01:00); the shift is one hour.
The platform tables record this rule for the years 2007-2037 and other,
historical rules before 2007, so the model is faithful to the tables
exactly on civil years 2007-2037 and every theorem whose content
depends on transition placement is stated with that era hypothesis. -/

/-- Standard (non-daylight) UTC offset of a zone, in seconds. -/
def stdOffset : Zone → Int
  | .eastern => -18000
  | .central => -21600
  | .pacific => -28800
  | .utc => 0

/-- Whether the zone observes United States daylight saving. -/
def isUS : Zone → Bool
  | .utc => false
  | _ => true

/-- Calendar day of the second Sunday of March. -/
def secondSundayMarch (y : Nat) : Nat := 8 + (7 - dayOfWeek y 3 8) % 7

/-- Calendar day of the first Sunday of November. -/
def firstSundayNov (y : Nat) : Nat := 1 + (7 - dayOfWeek y 11 1) % 7

/-- Wall-clock linearization of a civil datetime: seconds on the same
scale as `daysFromCivil`. -/
def civilSecs (y mo d h mi s : Nat) : Nat :=
  daysFromCivil y mo d * 86400 + (h * 3600 + mi * 60 + s)

/-- Wall-clock second at which the spring-forward gap opens
(02:00 on the second Sunday of March); the gap is one hour. -/
def springWall (y : Nat) : Nat :=
  daysFromCivil y 3 (secondSundayMarch y) * 86400 + 7200

/-- Wall-clock second at which the fall-back repeated hour starts
(01:00 on the first Sunday of November). -/
def foldWallStart (y : Nat) : Nat :=
  daysFromCivil y 11 (firstSundayNov y) * 86400 + 3600

/-- Wall-clock second at which the fall-back repeated hour ends. -/
def foldWallEnd (y : Nat) : Nat :=
  daysFromCivil y 11 (firstSundayNov y) * 86400 + 7200

/-- The exceptions `pytz` raises from `localize(naive, is_dst=None)`:
the gap and fold errors, whose `str(e)` is the offending naive datetime,
and the `OverflowError` its candidate probe `dt + timedelta(days=±1)`
raises when the date sits on the boundary of the representable datetime
range (any time on 0001-01-01 or 9999-12-31), whose `str(e)` is
`date value out of range`. -/
inductive LocalizeError where
  | ambiguous (y mo d h mi s : Nat)
  | nonexistent (y mo d h mi s : Nat)
  | overflow
deriving DecidableEq, Repr

/-- `str(e)` of a pytz localize exception. -/
def localizeErrStr : LocalizeError → String
  | .ambiguous y mo d h mi s => renderNaive y mo d h mi s
  | .nonexistent y mo d h mi s => renderNaive y mo d h mi s
  | .overflow => "date value out of range"

/-- `tz.localize(naive, is_dst=None)` of a United States zone: the
candidate probe at `dt ± one day` first overflows on the boundary dates
of the datetime range; otherwise raise on a nonexistent (spring-forward
gap) or ambiguous (fall-back fold) civil time, else return the absolute
instant (seconds, UTC scale) together with whether the civil time was in
daylight saving. The gap/fold/daylight determination models the zone
database tables for civil years 2007-2037 (the era of the
second-Sunday-March / first-Sunday-November federal rule within the
table horizon); outside that era the platform tables differ
(first-Sunday-April / last-Sunday-October during 1987-2006, local mean
time before 1883, a fixed standard offset past the horizon), and every
daylight-sensitive theorem below carries the corresponding era
hypothesis. `pytz.utc.localize` has no probe and never fails. -/
def localize (z : Zone) (y mo d h mi s : Nat) : Except LocalizeError (Int × Bool) :=
  let lin := civilSecs y mo d h mi s
  if isUS z then
    if (y = 1 ∧ mo = 1 ∧ d = 1) ∨ (y = 9999 ∧ mo = 12 ∧ d = 31) then
      .error .overflow
    else
      let sp := springWall y
      let f1 := foldWallStart y
      let f2 := foldWallEnd y
      if sp ≤ lin ∧ lin < sp + 3600 then .error (.nonexistent y mo d h mi s)
      else if f1 ≤ lin ∧ lin < f2 then .error (.ambiguous y mo d h mi s)
      else
        let dst := decide (sp + 3600 ≤ lin ∧ lin < f1)
        .ok ((lin : Int) - (stdOffset z + if dst then 3600 else 0), dst)
  else
    .ok ((lin : Int), false)

/-- Absolute instant (UTC scale) of the spring transition of year `y` in
zone `z`. -/
def springUtc (z : Zone) (y : Nat) : Int := (springWall y : Int) - stdOffset z

/-- Absolute instant (UTC scale) of the fall transition of year `y` in
zone `z` (02:00 daylight time). -/
def fallUtc (z : Zone) (y : Nat) : Int := (foldWallEnd y : Int) - (stdOffset z + 3600)

/-- Whether daylight saving is in effect in zone `z` at the absolute
instant `inst`: the instant lies between the transitions of its UTC
calendar year (United States daylight saving never spans new year).
Like `localize`, this models the zone database tables only for instants
whose UTC year is 2007-2037; the theorems that consult it for the
daylight flag carry that era hypothesis on the civil date. -/
def isDstAt (z : Zone) (inst : Int) : Bool :=
  isUS z &&
    (let yu := (civilFromDays (inst.toNat / 86400)).1
     decide (springUtc z yu ≤ inst ∧ inst < fallUtc z yu))

/-- `dt.dst()` of an aware datetime at instant `inst` in zone `z`,
in seconds. -/
def dstDeltaAt (z : Zone) (inst : Int) : Int :=
  if isDstAt z inst then 3600 else 0

/-- `dt.utcoffset()` of an aware datetime at instant `inst` in zone `z`. -/
def utcOffsetAt (z : Zone) (inst : Int) : Int :=
  stdOffset z + dstDeltaAt z inst

/-- An aware datetime: the civil reading of an absolute instant in a
zone, with its daylight shift and UTC offset. -/
structure LocalView where
  year : Nat
  month : Nat
  day : Nat
  hour : Nat
  minute : Nat
  second : Nat
  dstDelta : Int
  utcoffset : Int
deriving DecidableEq, Repr

/-- `dt.astimezone(z)`: render the absolute instant `inst` as a civil
datetime in zone `z`. -/
def astimezone (z : Zone) (inst : Int) : LocalView :=
  let off := utcOffsetAt z inst
  let lt := (inst + off).toNat
  let dt := civilFromDays (lt / 86400)
  let tod := lt % 86400
  { year := dt.1, month := dt.2.1, day := dt.2.2,
    hour := tod / 3600, minute := tod % 3600 / 60, second := tod % 60,
    dstDelta := dstDeltaAt z inst, utcoffset := off }

/-! ## The conversion endpoints -/

structure TimeConversionRequest where
  time_str : String
  from_timezone : String
  to_timezone : String
  date_str : Option String
deriving DecidableEq, Repr

structure TimeConversionResponse where
  original_time : String
  original_timezone : String
  converted_time : String
  converted_timezone : String
  is_dst : Bool
deriving DecidableEq, Repr

/-- `convert_time` of `src/main.py` (lines 179-212). `now` is the absolute
instant of the request, read by `datetime.now(pytz.utc)` when no date is
supplied. The localize call catches exactly `AmbiguousTimeError` and
`NonExistentTimeError`, so an `OverflowError` from the probe escapes the
handler and surfaces as the framework's uncaught-exception response,
HTTP 500 `Internal Server Error`. -/
def main_convert_time (req : TimeConversionRequest) (now : Int) :
    Except HTTPException TimeConversionResponse := do
  let from_abbr ← resolve_abbr req.from_timezone
  let to_abbr ← resolve_abbr req.to_timezone
  let from_tz ← abbr_to_tzinfo from_abbr
  let to_tz ← abbr_to_tzinfo to_abbr
  let hms ← parse_time_hms req.time_str
  let dateOpt ← parse_date req.date_str
  let nd :=
    match dateOpt with
    | some ymd => ymd
    | none =>
      let today := astimezone from_tz now
      (today.year, today.month, today.day)
  match localize from_tz nd.1 nd.2.1 nd.2.2 hms.1 hms.2.1 hms.2.2 with
  | .error (.ambiguous y mo d h mi s) =>
    .error ⟨400, "Failed to localize source time: " ++ renderNaive y mo d h mi s⟩
  | .error (.nonexistent y mo d h mi s) =>
    .error ⟨400, "Failed to localize source time: " ++ renderNaive y mo d h mi s⟩
  | .error .overflow =>
    .error ⟨500, "Internal Server Error"⟩
  | .ok (inst, _) =>
    let converted := astimezone to_tz inst
    .ok { original_time := req.time_str,
          original_timezone := from_abbr,
          converted_time := formatHMS converted.hour converted.minute converted.second,
          converted_timezone := to_abbr,
          is_dst := converted.dstDelta != 0 }

/-- `convert_time` of `src/time_service.py` (lines 97-139): the same
pipeline, except that the localize call catches every exception
(`except Exception as e`), so the probe's `OverflowError` is also
mapped to HTTP 400 with its `str(e)` in the detail. -/
def service_convert_time (req : TimeConversionRequest) (now : Int) :
    Except HTTPException TimeConversionResponse := do
  let from_abbr ← resolve_abbr req.from_timezone
  let to_abbr ← resolve_abbr req.to_timezone
  let from_tz ← abbr_to_tzinfo from_abbr
  let to_tz ← abbr_to_tzinfo to_abbr
  let hms ← parse_time_hms req.time_str
  let dateOpt ← parse_date req.date_str
  let nd :=
    match dateOpt with
    | some ymd => ymd
    | none =>
      let today := astimezone from_tz now
      (today.year, today.month, today.day)
  match localize from_tz nd.1 nd.2.1 nd.2.2 hms.1 hms.2.1 hms.2.2 with
  | .error e =>
    .error ⟨400, "Failed to localize source time: " ++ localizeErrStr e⟩
  | .ok (inst, _) =>
    let converted := astimezone to_tz inst
    .ok { original_time := req.time_str,
          original_timezone := from_abbr,
          converted_time := formatHMS converted.hour converted.minute converted.second,
          converted_timezone := to_abbr,
          is_dst := converted.dstDelta != 0 }

/-! ## Functions of the specification absent from src/ -/

/-- Modelled from the spec: `formatTime24` of §4.2 is not implemented in
src/ (the service renders 24-hour time only through `strftime`); the spec
says it zero-pads minute and second, and the service's own 24-hour
rendering `strftime("%H:%M:%S")` also pads the hour, so the model renders
`HH:MM:SS`. -/
def formatTime24 (t : ClockTime) : String :=
  formatHMS t.hour t.minute t.second

/-- Modelled from the spec: `parseTime12` of §4.2 is not implemented in
src/. It accepts `H:MM AM|PM` or `HH:MM AM|PM`, hour 1-12; `12:xx AM`
maps to hour 0, `12:xx PM` to hour 12, `H:xx AM` (1-11) to H, `H:xx PM`
to H+12; seconds are not part of the notation, so they parse as 0. -/
def parseTime12 (s : String) : Option ClockTime :=
  match splitOnChar ' ' s.data with
  | [tpart, mer] =>
    if mer = ['A', 'M'] ∨ mer = ['P', 'M'] then
      match splitOnChar ':' tpart with
      | [fh, fm] =>
        if (fh ≠ [] ∧ fh.length ≤ 2 ∧ fh.all Char.isDigit) ∧
            (fm.length = 2 ∧ fm.all Char.isDigit) then
          let h := natOfDigits fh
          let mi := natOfDigits fm
          if 1 ≤ h ∧ h ≤ 12 ∧ mi ≤ 59 then
            let h24 :=
              if mer = ['A', 'M'] then (if h = 12 then 0 else h)
              else (if h = 12 then 12 else h + 12)
            some ⟨h24, mi, 0⟩
          else none
        else none
      | _ => none
    else none
  | _ => none

/-! ## Helper lemmas -/

deriving instance DecidableEq for Except

/-- A decimal digit character that is also not whitespace and none of the
separator characters the parsers split on. -/
def plainDigit (c : Char) : Bool :=
  c.isDigit && !c.isWhitespace && c != ':' && c != ' ' && c != '-'

theorem pad2L_ok : ∀ n, n < 100 →
    (pad2L n).all plainDigit = true ∧ natOfDigits (pad2L n) = n ∧
      (pad2L n).length = 2 := by decide

theorem nopadL_ok : ∀ n, n < 100 →
    (nopadL n).all plainDigit = true ∧ natOfDigits (nopadL n) = n ∧
      1 ≤ (nopadL n).length ∧ (nopadL n).length ≤ 2 := by decide

theorem all_digit_of_plain (l : List Char) (h : l.all plainDigit = true) :
    l.all Char.isDigit = true := by
  rw [List.all_eq_true] at *
  intro c hc
  have hp := h c hc
  unfold plainDigit at hp
  simp only [Bool.and_eq_true] at hp
  exact hp.1.1.1.1

theorem not_ws_of_plain (l : List Char) (h : l.all plainDigit = true) :
    ∀ c ∈ l, c.isWhitespace = false := by
  rw [List.all_eq_true] at h
  intro c hc
  have hp := h c hc
  unfold plainDigit at hp
  simp only [Bool.and_eq_true, Bool.not_eq_true'] at hp
  exact hp.1.1.1.2

theorem ne_of_plain (l : List Char) (h : l.all plainDigit = true) :
    ∀ c ∈ l, c ≠ ':' ∧ c ≠ ' ' ∧ c ≠ '-' := by
  rw [List.all_eq_true] at h
  intro c hc
  have hp := h c hc
  unfold plainDigit at hp
  simp only [Bool.and_eq_true, bne_iff_ne] at hp
  exact ⟨hp.1.1.2, hp.1.2, hp.2⟩

theorem splitOnChar_nosep (sep : Char) (l : List Char) (h : ∀ c ∈ l, c ≠ sep) :
    splitOnChar sep l = [l] := by
  induction l with
  | nil => rfl
  | cons c cs ih =>
    have hc : c ≠ sep := h c (by simp)
    conv_lhs => rw [splitOnChar]
    rw [if_neg hc, ih (fun x hx => h x (by simp [hx]))]

theorem splitOnChar_append (sep : Char) (l rest : List Char)
    (h : ∀ c ∈ l, c ≠ sep) :
    splitOnChar sep (l ++ sep :: rest) = l :: splitOnChar sep rest := by
  induction l with
  | nil =>
    simp only [List.nil_append]
    conv_lhs => rw [splitOnChar]
    rw [if_pos rfl]
  | cons c cs ih =>
    have hc : c ≠ sep := h c (by simp)
    simp only [List.cons_append]
    conv_lhs => rw [splitOnChar]
    rw [if_neg hc, ih (fun x hx => h x (by simp [hx]))]

theorem dropWhile_false {p : Char → Bool} (l : List Char)
    (h : ∀ c ∈ l, p c = false) : l.dropWhile p = l := by
  induction l with
  | nil => rfl
  | cons c cs _ =>
    rw [List.dropWhile_cons, h c (by simp)]
    simp

theorem stripWs_id (l : List Char) (h : ∀ c ∈ l, c.isWhitespace = false) :
    stripWs l = l := by
  unfold stripWs
  rw [dropWhile_false l h,
    dropWhile_false l.reverse (fun c hc => h c (List.mem_reverse.mp hc)),
    List.reverse_reverse]

theorem isField12_of (l : List Char) (h1 : l.all plainDigit = true)
    (h2 : 1 ≤ l.length) (h3 : l.length ≤ 2) : isField12 l = true := by
  unfold isField12
  cases l with
  | nil => simp at h2
  | cons c cs =>
    simp only [List.isEmpty_cons, Bool.not_false, Bool.and_eq_true, Bool.true_and]
    exact ⟨decide_eq_true h3, all_digit_of_plain _ h1⟩

/-- The 24-hour rendering of an in-range time parses back to it. -/
theorem parse_time_hms_format (h mi s : Nat) (hh : h ≤ 23) (hm : mi ≤ 59)
    (hs : s ≤ 59) : parse_time_hms (formatHMS h mi s) = .ok (h, mi, s) := by
  obtain ⟨ph1, ph2, ph3⟩ := pad2L_ok h (by omega)
  obtain ⟨pm1, pm2, pm3⟩ := pad2L_ok mi (by omega)
  obtain ⟨ps1, ps2, ps3⟩ := pad2L_ok s (by omega)
  have hdata : (formatHMS h mi s).data =
      pad2L h ++ ':' :: (pad2L mi ++ ':' :: pad2L s) := rfl
  have hnws : ∀ c ∈ (formatHMS h mi s).data, c.isWhitespace = false := by
    rw [hdata]
    intro c hc
    rcases List.mem_append.mp hc with hc1 | hc2
    · exact not_ws_of_plain _ ph1 c hc1
    · rcases List.mem_cons.mp hc2 with rfl | hc3
      · decide
      · rcases List.mem_append.mp hc3 with hc4 | hc5
        · exact not_ws_of_plain _ pm1 c hc4
        · rcases List.mem_cons.mp hc5 with rfl | hc6
          · decide
          · exact not_ws_of_plain _ ps1 c hc6
  have hsplit : splitOnChar ':' (stripWs (formatHMS h mi s).data) =
      [pad2L h, pad2L mi, pad2L s] := by
    rw [stripWs_id _ hnws, hdata,
      splitOnChar_append ':' _ _ (fun c hc => (ne_of_plain _ ph1 c hc).1),
      splitOnChar_append ':' _ _ (fun c hc => (ne_of_plain _ pm1 c hc).1),
      splitOnChar_nosep ':' _ (fun c hc => (ne_of_plain _ ps1 c hc).1)]
  simp only [parse_time_hms, hsplit]
  rw [if_pos ⟨isField12_of _ ph1 (by omega) (by omega),
      isField12_of _ pm1 (by omega) (by omega),
      isField12_of _ ps1 (by omega) (by omega)⟩]
  rw [ph2, pm2, ps2, if_pos ⟨hh, hm, hs⟩]

/-- The `H:MM`/`HH:MM` rendering of an in-range time parses back through
`parse_time` (hour unpadded — both one- and two-digit hours parse). -/
theorem parse_time_format (h mi : Nat) (hh : h ≤ 23) (hm : mi ≤ 59) :
    parse_time (String.mk (nopadL h ++ ':' :: pad2L mi)) = .ok ⟨h, mi, 0⟩ := by
  obtain ⟨ph1, ph2, ph3, ph4⟩ := nopadL_ok h (by omega)
  obtain ⟨pm1, pm2, pm3⟩ := pad2L_ok mi (by omega)
  have hnws : ∀ c ∈ nopadL h ++ ':' :: pad2L mi, c.isWhitespace = false := by
    intro c hc
    rcases List.mem_append.mp hc with hc1 | hc2
    · exact not_ws_of_plain _ ph1 c hc1
    · rcases List.mem_cons.mp hc2 with rfl | hc3
      · decide
      · exact not_ws_of_plain _ pm1 c hc3
  have hsplit : splitOnChar ':' (stripWs (nopadL h ++ ':' :: pad2L mi)) =
      [nopadL h, pad2L mi] := by
    rw [stripWs_id _ hnws,
      splitOnChar_append ':' _ _ (fun c hc => (ne_of_plain _ ph1 c hc).1),
      splitOnChar_nosep ':' _ (fun c hc => (ne_of_plain _ pm1 c hc).1)]
  simp only [parse_time, hsplit]
  rw [if_pos ⟨⟨by intro he; rw [he] at ph3; simp at ph3, ph4,
      all_digit_of_plain _ ph1⟩, pm3, all_digit_of_plain _ pm1⟩]
  rw [ph2, pm2, if_neg (by omega), if_neg (by omega)]

/-- A rendered 12-hour string parses back through `parseTime12`, with the
hour mapped by the meridiem rule. -/
theorem parseTime12_render12 (h12 mi : Nat) (mer : List Char)
    (h1 : 1 ≤ h12) (h2 : h12 ≤ 12) (hm : mi ≤ 59)
    (hmer : mer = ['A', 'M'] ∨ mer = ['P', 'M']) :
    parseTime12 (render12 h12 mi mer) =
      some ⟨if mer = ['A', 'M'] then (if h12 = 12 then 0 else h12)
            else (if h12 = 12 then 12 else h12 + 12), mi, 0⟩ := by
  obtain ⟨ph1, ph2, ph3, ph4⟩ := nopadL_ok h12 (by omega)
  obtain ⟨pm1, pm2, pm3⟩ := pad2L_ok mi (by omega)
  have hmer_nospace : ∀ c ∈ mer, c ≠ ' ' := by
    rcases hmer with rfl | rfl <;> decide
  have hT : ∀ c ∈ nopadL h12 ++ ':' :: pad2L mi, c ≠ ' ' := by
    intro c hc
    rcases List.mem_append.mp hc with hc1 | hc2
    · exact (ne_of_plain _ ph1 c hc1).2.1
    · rcases List.mem_cons.mp hc2 with rfl | hc3
      · decide
      · exact (ne_of_plain _ pm1 c hc3).2.1
  have hdata : (render12 h12 mi mer).data =
      (nopadL h12 ++ ':' :: pad2L mi) ++ ' ' :: mer := by
    show nopadL h12 ++ ':' :: (pad2L mi ++ ' ' :: mer) =
      (nopadL h12 ++ ':' :: pad2L mi) ++ ' ' :: mer
    simp
  have hsplit : splitOnChar ' ' (render12 h12 mi mer).data =
      [nopadL h12 ++ ':' :: pad2L mi, mer] := by
    rw [hdata, splitOnChar_append ' ' _ _ hT, splitOnChar_nosep ' ' _ hmer_nospace]
  have hsplit2 : splitOnChar ':' (nopadL h12 ++ ':' :: pad2L mi) =
      [nopadL h12, pad2L mi] := by
    rw [splitOnChar_append ':' _ _ (fun c hc => (ne_of_plain _ ph1 c hc).1),
      splitOnChar_nosep ':' _ (fun c hc => (ne_of_plain _ pm1 c hc).1)]
  simp only [parseTime12, hsplit, hsplit2]
  rw [if_pos hmer]
  rw [if_pos ⟨⟨by intro he; rw [he] at ph3; simp at ph3, ph4,
      all_digit_of_plain _ ph1⟩, pm3, all_digit_of_plain _ pm1⟩]
  rw [ph2, pm2, if_pos ⟨h1, h2, hm⟩]

theorem ssm_bounds (y : Nat) :
    8 ≤ secondSundayMarch y ∧ secondSundayMarch y ≤ 14 := by
  unfold secondSundayMarch dayOfWeek; omega

theorem fsn_bounds (y : Nat) :
    1 ≤ firstSundayNov y ∧ firstSundayNov y ≤ 7 := by
  unfold firstSundayNov dayOfWeek; omega

theorem ssm_days_lt_fsn_days (y : Nat) :
    daysFromCivil y 3 (secondSundayMarch y) < daysFromCivil y 11 (firstSundayNov y) := by
  have h1 := ssm_bounds y
  have h2 := fsn_bounds y
  unfold daysFromCivil
  norm_num
  omega

/-! ### Propagation through the conversion pipeline -/

/-- Unfolding of `main_convert_time` once the registry and parsing stages
have succeeded. -/
theorem main_convert_eq (req : TimeConversionRequest) (now : Int)
    (a b : String) (z zt : Zone) (h mi s : Nat) (dOpt : Option (Nat × Nat × Nat))
    (h1 : resolve_abbr req.from_timezone = .ok a)
    (h2 : resolve_abbr req.to_timezone = .ok b)
    (h3 : abbr_to_tzinfo a = .ok z)
    (h4 : abbr_to_tzinfo b = .ok zt)
    (h5 : parse_time_hms req.time_str = .ok (h, mi, s))
    (h6 : parse_date req.date_str = .ok dOpt) :
    main_convert_time req now =
      (let nd :=
        match dOpt with
        | some ymd => ymd
        | none => ((astimezone z now).year, (astimezone z now).month, (astimezone z now).day)
       match localize z nd.1 nd.2.1 nd.2.2 h mi s with
       | .error (.ambiguous y mo d h mi s) =>
         .error ⟨400, "Failed to localize source time: " ++ renderNaive y mo d h mi s⟩
       | .error (.nonexistent y mo d h mi s) =>
         .error ⟨400, "Failed to localize source time: " ++ renderNaive y mo d h mi s⟩
       | .error .overflow =>
         .error ⟨500, "Internal Server Error"⟩
       | .ok (inst, _) =>
         .ok ⟨req.time_str, a,
              formatHMS (astimezone zt inst).hour (astimezone zt inst).minute
                (astimezone zt inst).second,
              b, (astimezone zt inst).dstDelta != 0⟩) := by
  simp only [main_convert_time, h1, h2, h3, h4, h5, h6, bind, Except.bind]

/-- A successful `parse_time_hms` yields in-range fields. -/
theorem parse_time_hms_ranges (str : String) (h mi s : Nat)
    (hp : parse_time_hms str = .ok (h, mi, s)) : h ≤ 23 ∧ mi ≤ 59 ∧ s ≤ 59 := by
  simp only [parse_time_hms] at hp
  split at hp
  · split_ifs at hp with hf hr
    simp only [Except.ok.injEq, Prod.mk.injEq] at hp
    omega
  · exact absurd hp (by simp)

/-- A successful `parse_time` yields in-range fields and second 0. -/
theorem parse_time_ranges (str : String) (t : ClockTime)
    (hp : parse_time str = .ok t) : t.hour ≤ 23 ∧ t.minute ≤ 59 ∧ t.second = 0 := by
  simp only [parse_time] at hp
  split at hp
  · split_ifs at hp with hf hh hm
    simp only [Except.ok.injEq] at hp
    subst hp
    refine ⟨by dsimp only; omega, by dsimp only; omega, rfl⟩
  · exact absurd hp (by simp)

/-! ## The claims -/

/-- C5: zone normalization accepts the four canonical abbreviations
case-sensitively; each legacy long-form alias yields the same identifier
as its abbreviation (in particular `EST` and `US/Eastern` agree); every
other string fails with the HTTP 400 unknown-zone error whose detail
carries the offending string and the accepted abbreviations. -/
theorem c5_zone_normalization :
    (resolve_abbr "EST" = .ok "EST" ∧ resolve_abbr "US/Eastern" = .ok "EST" ∧
     resolve_abbr "CST" = .ok "CST" ∧ resolve_abbr "US/Central" = .ok "CST" ∧
     resolve_abbr "PST" = .ok "PST" ∧ resolve_abbr "US/Pacific" = .ok "PST" ∧
     resolve_abbr "UTC" = .ok "UTC") ∧
    ∀ s : String, s ≠ "EST" → s ≠ "CST" → s ≠ "PST" → s ≠ "UTC" →
      s ≠ "US/Eastern" → s ≠ "US/Central" → s ≠ "US/Pacific" →
      resolve_abbr s = .error ⟨400,
        "Unknown or unsupported timezone: " ++ s ++ ". Allowed: EST, CST, PST, UTC"⟩ := by
  refine ⟨by decide, ?_⟩
  intro s h1 h2 h3 h4 h5 h6 h7
  have hnotin : s ∉ SUPPORTED_ABBR := by
    simp [SUPPORTED_ABBR]
    tauto
  have e4 : (s == "UTC") = false := beq_eq_false_iff_ne.mpr h4
  have e5 : (s == "US/Eastern") = false := beq_eq_false_iff_ne.mpr h5
  have e6 : (s == "US/Central") = false := beq_eq_false_iff_ne.mpr h6
  have e7 : (s == "US/Pacific") = false := beq_eq_false_iff_ne.mpr h7
  have hl : IANA_TO_ABBR.lookup s = none := by
    simp [IANA_TO_ABBR, ABBR_TO_IANA, List.lookup, e4, e5, e6, e7]
  unfold resolve_abbr
  rw [if_neg (by simpa using hnotin), hl]

/-- C5 witness: `MARS` is none of the accepted strings and fails with the
unknown-zone error. -/
theorem c5_zone_normalization_witness :
    resolve_abbr "MARS" = .error ⟨400,
      "Unknown or unsupported timezone: " ++ "MARS" ++ ". Allowed: EST, CST, PST, UTC"⟩ :=
  c5_zone_normalization.2 "MARS" (by decide) (by decide) (by decide) (by decide)
    (by decide) (by decide) (by decide)

/-- C9: every identifier zone normalization returns is a key of the
abbreviation-to-IANA table, so the table indexing in the rule lookup
cannot raise and the configuration-error branch is unreachable under the
correctly configured zone database. -/
theorem c9_rules_lookup_safe :
    ∀ s a : String, resolve_abbr s = .ok a →
      (ABBR_TO_IANA.lookup a).isSome = true ∧ ∃ z, abbr_to_tzinfo a = .ok z := by
  intro s a h
  have ha : a = "EST" ∨ a = "CST" ∨ a = "PST" ∨ a = "UTC" := by
    unfold resolve_abbr at h
    split at h
    · rename_i hc
      simp only [Except.ok.injEq] at h
      subst h
      simp [SUPPORTED_ABBR] at hc
      tauto
    · split at h
      · rename_i hl
        simp only [Except.ok.injEq] at h
        subst h
        simp only [IANA_TO_ABBR, ABBR_TO_IANA, List.map, List.lookup] at hl
        split at hl
        · simp only [Option.some.injEq] at hl; subst hl; tauto
        · split at hl
          · simp only [Option.some.injEq] at hl; subst hl; tauto
          · split at hl
            · simp only [Option.some.injEq] at hl; subst hl; tauto
            · split at hl
              · simp only [Option.some.injEq] at hl; subst hl; tauto
              · exact absurd hl (by simp)
      · exact absurd h (by simp)
  rcases ha with rfl | rfl | rfl | rfl
  · exact ⟨by decide, ⟨Zone.eastern, by decide⟩⟩
  · exact ⟨by decide, ⟨Zone.central, by decide⟩⟩
  · exact ⟨by decide, ⟨Zone.pacific, by decide⟩⟩
  · exact ⟨by decide, ⟨Zone.utc, by decide⟩⟩

/-- C9 witness: normalizing the alias `US/Eastern` yields `EST`, whose
rule lookup succeeds. -/
theorem c9_rules_lookup_safe_witness :
    (ABBR_TO_IANA.lookup "EST").isSome = true ∧ ∃ z, abbr_to_tzinfo "EST" = .ok z :=
  c9_rules_lookup_safe "US/Eastern" "EST" (by decide)

/-- C6: the 12-hour formatter is total over valid times, renders the hour
without leading zero, the minute zero-padded, an uppercase AM/PM suffix,
and maps 00:00, 01:05, 12:00, 13:15 and 23:59 to their reference
renderings. -/
theorem c6_format12_total :
    (format_time_standard ⟨0, 0, 0⟩ = "12:00 AM" ∧
     format_time_standard ⟨1, 5, 0⟩ = "1:05 AM" ∧
     format_time_standard ⟨12, 0, 0⟩ = "12:00 PM" ∧
     format_time_standard ⟨13, 15, 0⟩ = "1:15 PM" ∧
     format_time_standard ⟨23, 59, 0⟩ = "11:59 PM") ∧
    ∀ t : ClockTime, t.hour ≤ 23 → t.minute ≤ 59 →
      ∃ h12, 1 ≤ h12 ∧ h12 ≤ 12 ∧ h12 % 12 = t.hour % 12 ∧
        format_time_standard t =
          String.mk (nopadL h12 ++ ':' :: (pad2L t.minute ++ ' ' ::
            (if t.hour < 12 then ['A', 'M'] else ['P', 'M']))) ∧
        (nopadL h12).head? ≠ some '0' ∧ (pad2L t.minute).length = 2 := by
  refine ⟨by decide, ?_⟩
  intro t h1 h2
  have hlen := (pad2L_ok t.minute (by omega)).2.2
  have hhead : ∀ n, n < 13 → 1 ≤ n → (nopadL n).head? ≠ some '0' := by decide
  rcases Nat.lt_or_ge t.hour 12 with hlt | hge
  · rw [if_pos hlt]
    unfold format_time_standard
    split_ifs with ha
    · exact ⟨12, by omega, by omega, by omega, rfl,
        hhead 12 (by omega) (by omega), hlen⟩
    · exact ⟨t.hour, by omega, by omega, rfl, rfl,
        hhead t.hour (by omega) (by omega), hlen⟩
  · rw [if_neg (by omega)]
    unfold format_time_standard
    split_ifs with ha hb hc
    · omega
    · omega
    · exact ⟨12, by omega, by omega, by omega, rfl,
        hhead 12 (by omega) (by omega), hlen⟩
    · exact ⟨t.hour - 12, by omega, by omega, by omega, rfl,
        hhead (t.hour - 12) (by omega) (by omega), hlen⟩

/-- C6 witness: the formatter evaluated at 13:15. -/
theorem c6_format12_total_witness :
    ∃ h12, 1 ≤ h12 ∧ h12 ≤ 12 ∧
      h12 % 12 = (⟨13, 15, 0⟩ : ClockTime).hour % 12 ∧
      format_time_standard ⟨13, 15, 0⟩ =
        String.mk (nopadL h12 ++ ':' :: (pad2L (⟨13, 15, 0⟩ : ClockTime).minute ++ ' ' ::
          (if (⟨13, 15, 0⟩ : ClockTime).hour < 12 then ['A', 'M'] else ['P', 'M']))) ∧
      (nopadL h12).head? ≠ some '0' ∧
      (pad2L (⟨13, 15, 0⟩ : ClockTime).minute).length = 2 :=
  c6_format12_total.2 ⟨13, 15, 0⟩ (by decide) (by decide)

/-- C4 counterexample: no single source parser accepts all three claimed
shapes: the conversion parser `parse_time_hms` rejects `13:15`
(seconds are required), and the formatting parser `parse_time` rejects
`13:15:00` (no seconds allowed). -/
theorem c4_parse24_claim_false :
    (parse_time_hms "13:15").isOk = false ∧ (parse_time "13:15:00").isOk = false := by
  decide

/-- C4 amended: the repository has two 24-hour parsers. `parse_time_hms`
(used by the conversion endpoint) accepts exactly colon-separated
hour:minute:second with all three fields present, each one or two
digits, hour 0-23 and minute/second 0-59, ignoring surrounding
whitespace, and fails with an HTTP 400 error otherwise; `parse_time`
(used by the formatting endpoint) accepts exactly `H:MM`/`HH:MM` with a
two-digit minute and no seconds field, same ranges, ignoring surrounding
whitespace, and raises `ValueError` otherwise. -/
theorem c4_parsers_characterized :
    (∀ h mi s, h ≤ 23 → mi ≤ 59 → s ≤ 59 →
       parse_time_hms (formatHMS h mi s) = .ok (h, mi, s)) ∧
    (∀ str h mi s, parse_time_hms str = .ok (h, mi, s) →
       h ≤ 23 ∧ mi ≤ 59 ∧ s ≤ 59) ∧
    (∀ h mi, h ≤ 23 → mi ≤ 59 →
       parse_time (String.mk (nopadL h ++ ':' :: pad2L mi)) = .ok ⟨h, mi, 0⟩) ∧
    (∀ str t, parse_time str = .ok t → t.hour ≤ 23 ∧ t.minute ≤ 59 ∧ t.second = 0) ∧
    parse_time_hms " 13:15:00 " = .ok (13, 15, 0) ∧
    parse_time_hms "1:2:3" = .ok (1, 2, 3) ∧
    (parse_time_hms "13:15").isOk = false ∧
    (parse_time_hms "aa:bb:cc").isOk = false ∧
    (parse_time_hms "123:00:00").isOk = false ∧
    (parse_time_hms "24:00:00").isOk = false ∧
    (parse_time_hms "00:60:00").isOk = false ∧
    (parse_time_hms "00:00:60").isOk = false ∧
    parse_time " 13:15 " = .ok ⟨13, 15, 0⟩ ∧
    (parse_time "13:15:00").isOk = false ∧
    (parse_time "1:5").isOk = false ∧
    (parse_time "24:00").isOk = false := by
  refine ⟨fun h mi s hh hm hs => parse_time_hms_format h mi s hh hm hs,
    fun str h mi s hp => parse_time_hms_ranges str h mi s hp,
    fun h mi hh hm => parse_time_format h mi hh hm,
    fun str t hp => parse_time_ranges str t hp, ?_⟩
  decide

/-- C4 witness: the amended acceptance at 13:15:00 and 13:15. -/
theorem c4_parsers_characterized_witness :
    parse_time_hms (formatHMS 13 15 0) = .ok (13, 15, 0) ∧
    parse_time (String.mk (nopadL 13 ++ ':' :: pad2L 15)) = .ok ⟨13, 15, 0⟩ :=
  ⟨c4_parsers_characterized.1 13 15 0 (by decide) (by decide) (by decide),
   c4_parsers_characterized.2.2.1 13 15 (by decide) (by decide)⟩

/-- C7 counterexample: the 12-hour formatter drops seconds, so parsing
its rendering of 00:00:01 yields 00:00:00, not the original value. -/
theorem c7_roundtrip_claim_false :
    parseTime12 (format_time_standard ⟨0, 0, 1⟩) ≠ some ⟨0, 0, 1⟩ := by decide

/-- C7 amended: the 24-hour round trip holds for every valid ClockTime;
the 12-hour round trip holds for every valid ClockTime whose second is 0
(the 12-hour notation has no seconds field). -/
theorem c7_roundtrip_amended :
    (∀ t : ClockTime, t.hour ≤ 23 → t.minute ≤ 59 → t.second ≤ 59 →
       parse_time_hms (formatTime24 t) = .ok (t.hour, t.minute, t.second)) ∧
    (∀ t : ClockTime, t.hour ≤ 23 → t.minute ≤ 59 → t.second = 0 →
       parseTime12 (format_time_standard t) = some t) := by
  constructor
  · intro t h1 h2 h3
    exact parse_time_hms_format t.hour t.minute t.second h1 h2 h3
  · intro t h1 h2 h3
    obtain ⟨h, mi, sec⟩ := t
    dsimp only at h1 h2 h3
    subst h3
    unfold format_time_standard
    dsimp only
    split_ifs with ha hb hc
    · subst ha
      rw [parseTime12_render12 12 mi ['A', 'M'] (by omega) (by omega) h2 (Or.inl rfl),
        if_pos rfl, if_pos rfl]
    · rw [parseTime12_render12 h mi ['A', 'M'] (by omega) (by omega) h2 (Or.inl rfl),
        if_pos rfl, if_neg (show ¬h = 12 by omega)]
    · subst hc
      rw [parseTime12_render12 12 mi ['P', 'M'] (by omega) (by omega) h2 (Or.inr rfl),
        if_neg (show ¬(['P', 'M'] : List Char) = ['A', 'M'] from by decide), if_pos rfl]
    · rw [parseTime12_render12 (h - 12) mi ['P', 'M'] (by omega) (by omega) h2 (Or.inr rfl),
        if_neg (show ¬(['P', 'M'] : List Char) = ['A', 'M'] from by decide),
        if_neg (show ¬h - 12 = 12 by omega),
        show h - 12 + 12 = h from by omega]

/-- A civil time in the repeated fall-back hour makes `localize` raise
the ambiguous-time error. -/
theorem localize_fold (z : Zone) (hz : isUS z = true) (y d h mi s : Nat)
    (hd : d = firstSundayNov y)
    (ht1 : 3600 ≤ h * 3600 + mi * 60 + s) (ht2 : h * 3600 + mi * 60 + s < 7200) :
    localize z y 11 d h mi s = .error (.ambiguous y 11 d h mi s) := by
  subst hd
  have hlt := ssm_days_lt_fsn_days y
  simp only [localize, hz]
  rw [if_true, if_neg (by simp)]
  split_ifs with hgap hfold
  · exfalso
    unfold civilSecs springWall at hgap
    omega
  · rfl
  · exfalso
    apply hfold
    unfold civilSecs foldWallStart foldWallEnd
    constructor <;> omega

/-- A civil time in the spring-forward gap makes `localize` raise the
nonexistent-time error. -/
theorem localize_gap (z : Zone) (hz : isUS z = true) (y d h mi s : Nat)
    (hd : d = secondSundayMarch y)
    (ht1 : 7200 ≤ h * 3600 + mi * 60 + s) (ht2 : h * 3600 + mi * 60 + s < 10800) :
    localize z y 3 d h mi s = .error (.nonexistent y 3 d h mi s) := by
  subst hd
  simp only [localize, hz]
  rw [if_true, if_neg (by simp)]
  split_ifs with hgap hfold
  · rfl
  · exfalso
    apply hgap
    unfold civilSecs springWall
    constructor <;> omega
  · exfalso
    apply hgap
    unfold civilSecs springWall
    constructor <;> omega

/-- C1 counterexample: the claim says an ambiguous civil time never
fails, but converting 01:30:00 on 2025-11-02 (inside the fall-back
repeated hour of the Eastern zone) fails. -/
theorem c1_ambiguous_claim_false :
    (main_convert_time ⟨"01:30:00", "EST", "PST", some "2025-11-02"⟩ 0).isOk = false := by
  decide

/-- C1 amended: for every civil time in a United States zone's fall-back
repeated interval on a given date of the modeled table era (2007-2037,
where the fall transition day is the first Sunday of November),
`localize` raises the pytz ambiguous-time error (the `is_dst=None`
policy refuses to guess) and the conversion fails with HTTP 400, for
every pair of valid source and target zones; no deterministic
resolution to the standard offset happens. -/
theorem c1_ambiguous_rejected :
    ∀ (req : TimeConversionRequest) (now : Int) (a b : String) (z zt : Zone)
      (y d h mi s : Nat),
      resolve_abbr req.from_timezone = .ok a →
      resolve_abbr req.to_timezone = .ok b →
      abbr_to_tzinfo a = .ok z →
      abbr_to_tzinfo b = .ok zt →
      parse_time_hms req.time_str = .ok (h, mi, s) →
      parse_date req.date_str = .ok (some (y, 11, d)) →
      2007 ≤ y → y ≤ 2037 →
      isUS z = true →
      d = firstSundayNov y →
      3600 ≤ h * 3600 + mi * 60 + s →
      h * 3600 + mi * 60 + s < 7200 →
      localize z y 11 d h mi s = .error (.ambiguous y 11 d h mi s) ∧
      main_convert_time req now =
        .error ⟨400, "Failed to localize source time: " ++ renderNaive y 11 d h mi s⟩ := by
  intro req now a b z zt y d h mi s h1 h2 h3 h4 h5 h6 hy1 hy2 hz hd ht1 ht2
  have hloc := localize_fold z hz y d h mi s hd ht1 ht2
  refine ⟨hloc, ?_⟩
  rw [main_convert_eq req now a b z zt h mi s (some (y, 11, d)) h1 h2 h3 h4 h5 h6]
  simp only [hloc, localizeErrStr]

/-- C1 witness: 01:30:00 on 2025-11-02 from EST to PST. -/
theorem c1_ambiguous_rejected_witness :
    localize Zone.eastern 2025 11 2 1 30 0 = .error (.ambiguous 2025 11 2 1 30 0) ∧
    main_convert_time ⟨"01:30:00", "EST", "PST", some "2025-11-02"⟩ 0 =
      .error ⟨400, "Failed to localize source time: " ++ renderNaive 2025 11 2 1 30 0⟩ :=
  c1_ambiguous_rejected ⟨"01:30:00", "EST", "PST", some "2025-11-02"⟩ 0 "EST" "PST"
    Zone.eastern Zone.pacific 2025 2 1 30 0 (by decide) (by decide) (by decide)
    (by decide) (by decide) (by decide) (by decide) (by decide) (by decide) (by decide)
    (by decide) (by decide)

/-- C2: for every civil time in a United States zone's spring-forward gap
on a given date of the modeled table era (2007-2037, where the spring
transition day is the second Sunday of March and the gap is
02:00-02:59:59), `localize` raises the pytz nonexistent-time error and
the conversion fails with HTTP 400 (a retryable input error); no result
with a silently shifted time is returned. -/
theorem c2_nonexistent_rejected :
    ∀ (req : TimeConversionRequest) (now : Int) (a b : String) (z zt : Zone)
      (y d h mi s : Nat),
      resolve_abbr req.from_timezone = .ok a →
      resolve_abbr req.to_timezone = .ok b →
      abbr_to_tzinfo a = .ok z →
      abbr_to_tzinfo b = .ok zt →
      parse_time_hms req.time_str = .ok (h, mi, s) →
      parse_date req.date_str = .ok (some (y, 3, d)) →
      2007 ≤ y → y ≤ 2037 →
      isUS z = true →
      d = secondSundayMarch y →
      7200 ≤ h * 3600 + mi * 60 + s →
      h * 3600 + mi * 60 + s < 10800 →
      localize z y 3 d h mi s = .error (.nonexistent y 3 d h mi s) ∧
      main_convert_time req now =
        .error ⟨400, "Failed to localize source time: " ++ renderNaive y 3 d h mi s⟩ := by
  intro req now a b z zt y d h mi s h1 h2 h3 h4 h5 h6 hy1 hy2 hz hd ht1 ht2
  have hloc := localize_gap z hz y d h mi s hd ht1 ht2
  refine ⟨hloc, ?_⟩
  rw [main_convert_eq req now a b z zt h mi s (some (y, 3, d)) h1 h2 h3 h4 h5 h6]
  simp only [hloc, localizeErrStr]

/-- C2 witness: 02:30:00 on 2025-03-09 from EST to PST. -/
theorem c2_nonexistent_rejected_witness :
    localize Zone.eastern 2025 3 9 2 30 0 = .error (.nonexistent 2025 3 9 2 30 0) ∧
    main_convert_time ⟨"02:30:00", "EST", "PST", some "2025-03-09"⟩ 0 =
      .error ⟨400, "Failed to localize source time: " ++ renderNaive 2025 3 9 2 30 0⟩ :=
  c2_nonexistent_rejected ⟨"02:30:00", "EST", "PST", some "2025-03-09"⟩ 0 "EST" "PST"
    Zone.eastern Zone.pacific 2025 9 2 30 0 (by decide) (by decide) (by decide)
    (by decide) (by decide) (by decide) (by decide) (by decide) (by decide) (by decide)
    (by decide) (by decide)

/-- C8: when no date string is supplied, the conversion anchors the civil
time to the current calendar date as observed in the source zone at the
request instant; the closed conjuncts exhibit an instant
(2025-06-15T01:00:00Z) whose source-zone date (2025-06-14 in Eastern)
differs from the UTC date (2025-06-15), pinning down which one is used. -/
theorem c8_default_date_source_zone :
    (∀ (ts fs tos : String) (now : Int) (a b : String) (z zt : Zone) (h mi s : Nat),
      resolve_abbr fs = .ok a → resolve_abbr tos = .ok b →
      abbr_to_tzinfo a = .ok z → abbr_to_tzinfo b = .ok zt →
      parse_time_hms ts = .ok (h, mi, s) →
      main_convert_time ⟨ts, fs, tos, none⟩ now =
        (match localize z (astimezone z now).year (astimezone z now).month
            (astimezone z now).day h mi s with
         | .error (.ambiguous y mo d h mi s) =>
           .error ⟨400, "Failed to localize source time: " ++ renderNaive y mo d h mi s⟩
         | .error (.nonexistent y mo d h mi s) =>
           .error ⟨400, "Failed to localize source time: " ++ renderNaive y mo d h mi s⟩
         | .error .overflow =>
           .error ⟨500, "Internal Server Error"⟩
         | .ok (inst, _) =>
           .ok ⟨ts, a,
                formatHMS (astimezone zt inst).hour (astimezone zt inst).minute
                  (astimezone zt inst).second,
                b, (astimezone zt inst).dstDelta != 0⟩)) ∧
    (astimezone Zone.eastern (civilSecs 2025 6 15 1 0 0 : Int)).year = 2025 ∧
    (astimezone Zone.eastern (civilSecs 2025 6 15 1 0 0 : Int)).month = 6 ∧
    (astimezone Zone.eastern (civilSecs 2025 6 15 1 0 0 : Int)).day = 14 ∧
    (astimezone Zone.utc (civilSecs 2025 6 15 1 0 0 : Int)).day = 15 := by
  refine ⟨?_, by decide, by decide, by decide, by decide⟩
  intro ts fs tos now a b z zt h mi s h1 h2 h3 h4 h5
  rw [main_convert_eq ⟨ts, fs, tos, none⟩ now a b z zt h mi s none h1 h2 h3 h4 h5 rfl]

/-- C8 witness: converting 13:15:00 EST to PST with no date at the
instant 2025-06-15T01:00:00Z anchors to the Eastern date 2025-06-14 and
succeeds. -/
theorem c8_default_date_source_zone_witness :
    main_convert_time ⟨"13:15:00", "EST", "PST", none⟩ (civilSecs 2025 6 15 1 0 0 : Int) =
      .ok ⟨"13:15:00", "EST", "10:15:00", "PST", true⟩ :=
  c8_default_date_source_zone.1 "13:15:00" "EST" "PST" (civilSecs 2025 6 15 1 0 0 : Int)
    "EST" "PST" Zone.eastern Zone.pacific 13 15 0
    (by decide) (by decide) (by decide) (by decide) (by decide)

/-- C10 counterexample: on 0001-01-01, a date at the boundary of the
`datetime` range where pytz's one-day localize probe overflows, the two
endpoints disagree: `src/main.py` lets the `OverflowError` escape its
narrow except clause and answers HTTP 500, while `src/time_service.py`
catches it under `except Exception` and answers HTTP 400. -/
theorem c10_variants_claim_false :
    main_convert_time ⟨"13:15:00", "EST", "PST", some "0001-01-01"⟩ 0 =
      .error ⟨500, "Internal Server Error"⟩ ∧
    service_convert_time ⟨"13:15:00", "EST", "PST", some "0001-01-01"⟩ 0 =
      .error ⟨400, "Failed to localize source time: date value out of range"⟩ ∧
    main_convert_time ⟨"13:15:00", "EST", "PST", some "0001-01-01"⟩ 0 ≠
      service_convert_time ⟨"13:15:00", "EST", "PST", some "0001-01-01"⟩ 0 := by
  refine ⟨by decide, by decide, by decide⟩

/-- C10 amended: the conversion endpoints of `src/main.py` and
`src/time_service.py` agree on every input except when the localize
probe overflows the `datetime` range (a United States source zone on
0001-01-01 or 9999-12-31); there `src/main.py` answers HTTP 500
`Internal Server Error` (the `OverflowError` escapes its narrow except
clause) while `src/time_service.py` answers HTTP 400 with the
overflow's message (its `except Exception` catches it). -/
theorem c10_variants_agree :
    ∀ (req : TimeConversionRequest) (now : Int),
      main_convert_time req now = service_convert_time req now ∨
      (main_convert_time req now = .error ⟨500, "Internal Server Error"⟩ ∧
       service_convert_time req now =
         .error ⟨400, "Failed to localize source time: date value out of range"⟩) := by
  intro req now
  simp only [main_convert_time, service_convert_time]
  rcases h1 : resolve_abbr req.from_timezone with e | a <;>
    simp only [h1, bind, Except.bind]
  · exact Or.inl True.intro
  rcases h2 : resolve_abbr req.to_timezone with e | b <;>
    simp only [h2, bind, Except.bind]
  · exact Or.inl True.intro
  rcases h3 : abbr_to_tzinfo a with e | z <;>
    simp only [h3, bind, Except.bind]
  · exact Or.inl True.intro
  rcases h4 : abbr_to_tzinfo b with e | zt <;>
    simp only [h4, bind, Except.bind]
  · exact Or.inl True.intro
  rcases h5 : parse_time_hms req.time_str with e | hms <;>
    simp only [h5, bind, Except.bind]
  · exact Or.inl True.intro
  rcases h6 : parse_date req.date_str with e | dOpt <;>
    simp only [h6, bind, Except.bind]
  · exact Or.inl True.intro
  rcases dOpt with _ | ymd <;> dsimp only
  · rcases hl : localize z (astimezone z now).year (astimezone z now).month
        (astimezone z now).day hms.1 hms.2.1 hms.2.2 with e | p <;> simp only [hl]
    · cases e
      · exact Or.inl rfl
      · exact Or.inl rfl
      · exact Or.inr ⟨rfl, rfl⟩
    · exact Or.inl True.intro
  · rcases hl : localize z ymd.1 ymd.2.1 ymd.2.2 hms.1 hms.2.1 hms.2.2 with e | p <;>
      simp only [hl]
    · cases e
      · exact Or.inl rfl
      · exact Or.inl rfl
      · exact Or.inr ⟨rfl, rfl⟩
    · exact Or.inl True.intro

/-- C7 witness: both round trips evaluated at 13:15:00 and 13:15. -/
theorem c7_roundtrip_amended_witness :
    parse_time_hms (formatTime24 ⟨13, 15, 0⟩) =
      .ok ((⟨13, 15, 0⟩ : ClockTime).hour, (⟨13, 15, 0⟩ : ClockTime).minute,
        (⟨13, 15, 0⟩ : ClockTime).second) ∧
    parseTime12 (format_time_standard ⟨13, 15, 0⟩) = some ⟨13, 15, 0⟩ :=
  ⟨c7_roundtrip_amended.1 ⟨13, 15, 0⟩ (by decide) (by decide) (by decide),
   c7_roundtrip_amended.2 ⟨13, 15, 0⟩ (by decide) (by decide) (by decide)⟩

end TimeFmt
